import Mathlib

/-!
Verification development for the `spraxxx.pantry` repository.

Shallow embedding of the three stateful cores of the code base:

* `CommercialProtection` (`src/core/commercial-protection.js`): per-request commercial
  scoring and the per-IP suspicious-activity map (`analyzeRequest`, `monitorUsage`,
  `handleSuspiciousActivity`, `blockCommercialViolation`, `logSuspiciousActivity`,
  `reportViolation` / `autoInvestigate`).
* `BotDetectionEngine` (`src/core/bot-detection.js`): bot/human scoring
  (`performTrafficAnalysis`), the ethical-filtering allow decision (`shouldRedirect`)
  and the middleware pipeline that chains bot detection into commercial protection
  (`setupMiddleware` in the main server file).
* `CharitableAllocation` (`src/core/charitable-allocation.js` and the priority factor
  table of `charitable.config.js`): project validation, priority computation and the
  sorted project queue (`validateProjectSubmission`, `calculateProjectPriority`,
  `submitProject`, `sortProjectQueue`, `registerNonprofit`).

Modelling conventions:

* JavaScript strings are `List Char` (`Str`), `String.prototype.toLowerCase` is
  `lowerStr`, `String.prototype.includes` is `strIncludes`. A possibly-absent header
  is `Option Str`; the JS idiom `(x || '')` is `jsStr`, JS string truthiness is
  `jsTruthy`.
* JS `Map` is an insertion-ordered association list (`mapGet` / `mapSet`), JS `Set`
  of strings is an insertion-ordered duplicate-free list (`setAdd`, membership).
* Timestamps (`Date.now()`) are `Nat` milliseconds, passed in as a parameter.
* All scores are exact integers exactly as the source adds them.  The bot-detection
  `confidence` is the exact rational `botScore / (botScore + humanScore)` (`0.5`
  when the total is `0`); its comparisons against the literals `0.6` and `0.7` are
  embedded as the equivalent cross-multiplied integer comparisons (`confidenceGt`).
  For the small integer scores that occur, IEEE-double evaluation of the source
  agrees with the exact rational comparison.
* Allocator priorities are exact and kept in units of 1/60 (`priority60`), the least
  common denominator of every contribution of `calculateProjectPriority` under the
  configured factor table {publicBenefit 0.4, nonprofitStatus 0.2, transparency 0.2,
  communitySupport 0.1, impactPotential 0.1}: the source's float `priority` is
  `priority60 / 60`.
* Thrown JS exceptions are explicit result values (`JsError`, `MonitorResult.threw`,
  `Except`).
-/

namespace Pantry

/-- Str is the embedding of a JavaScript string: its list of characters. -/
abbrev Str := List Char

/-- ASCII lower-casing of one character, as `String.prototype.toLowerCase` acts on
the ASCII identifiers and headers that occur in the source. -/
def charLower (c : Char) : Char :=
  if 'A' ≤ c ∧ c ≤ 'Z' then Char.ofNat (c.toNat + 32) else c

/-- JS `String.prototype.toLowerCase`. -/
def lowerStr (s : Str) : Str := s.map charLower

/-- JS `String.prototype.includes`: `needle` occurs contiguously in `hay`. -/
def strIncludes (hay needle : Str) : Bool :=
  match hay with
  | [] => needle.isEmpty
  | _ :: rest => needle.isPrefixOf hay || strIncludes rest needle

/-- The JS idiom `(x || '')` applied to a possibly-absent string. -/
def jsStr (o : Option Str) : Str := o.getD []

/-- JS truthiness of a possibly-absent string (`undefined` and `''` are falsy). -/
def jsTruthy (o : Option Str) : Bool :=
  match o with
  | some s => !s.isEmpty
  | none => false

/-- The JS idiom `x || d` for a possibly-absent string with default `d`. -/
def jsOrStr (o : Option Str) (d : Str) : Str :=
  match o with
  | some s => if s.isEmpty then d else s
  | none => d

/-- JS `Map.prototype.get` over an insertion-ordered association list. -/
def mapGet {V : Type} (m : List (Str × V)) (k : Str) : Option V :=
  match m with
  | [] => none
  | (k', v) :: rest => if k' = k then some v else mapGet rest k

/-- JS `Map.prototype.set`: update in place if the key exists, else append. -/
def mapSet {V : Type} (m : List (Str × V)) (k : Str) (v : V) : List (Str × V) :=
  match m with
  | [] => [(k, v)]
  | (k', v') :: rest => if k' = k then (k', v) :: rest else (k', v') :: mapSet rest k v

/-- JS `Set.prototype.add` over an insertion-ordered duplicate-free list. -/
def setAdd (s : List Str) (x : Str) : List Str :=
  if x ∈ s then s else s ++ [x]

/-! ## CommercialProtection (`src/core/commercial-protection.js`) -/

/-- The request facts read by `CommercialProtection.analyzeRequest` and
`BotDetectionEngine.performTrafficAnalysis`: user agent, referer, the two headers the
bot engine inspects, source ip, method and path.  `none` models an absent header. -/
structure Request where
  userAgent : Option Str
  referer : Option Str
  accept : Option Str
  acceptLanguage : Option Str
  ip : Str
  method : Str
  path : Str
deriving DecidableEq, Repr

/-- The commercial-indicator keyword set built by `initializeCommercialIndicators`. -/
def commercialIndicators : List Str :=
  (["profit", "revenue", "sales", "commercial", "business", "enterprise",
    "monetize", "pricing", "subscription", "payment", "billing",
    "corporate", "company", "inc", "llc", "ltd", "corp",
    "competitive", "advantage", "market", "customer", "client",
    "proprietary", "exclusive", "licensing", "resell",
    "exploit", "leverage", "maximize", "optimize", "scale",
    "automation", "efficiency", "productivity"]).map String.toList

/-- `businessDomains` of `analyzeRequest`. -/
def businessDomains : List Str :=
  ([".com", ".biz", ".corp", ".enterprise"]).map String.toList

/-- `automationTools` of `analyzeRequest`. -/
def automationTools : List Str :=
  (["selenium", "puppeteer", "playwright", "cypress"]).map String.toList

/-- The `commercialScore` computed by `analyzeRequest`, clause by clause in source
order: +2 per commercial indicator in the lower-cased user agent, +3 per indicator in
the lower-cased referer (skipped when the referer is empty), +1 for a business domain
in the referer, +1 for `POST` with `api` in the path, +2 for an automation tool in the
user agent, +5 when the ip is in `blockedEntities`. -/
def commercialScoreOf (blockedEntities : List Str) (req : Request) : Nat :=
  let userAgent := lowerStr (jsStr req.userAgent)
  let referer := lowerStr (jsStr req.referer)
  2 * (commercialIndicators.filter (fun ind => strIncludes userAgent ind)).length
    + (if referer.isEmpty then 0
       else 3 * (commercialIndicators.filter (fun ind => strIncludes referer ind)).length)
    + (if !referer.isEmpty && businessDomains.any (fun d => strIncludes referer d) then 1 else 0)
    + (if req.method == "POST".toList && strIncludes req.path "api".toList then 1 else 0)
    + (if automationTools.any (fun t => strIncludes userAgent t) then 2 else 0)
    + (if req.ip ∈ blockedEntities then 5 else 0)

/-- The `indicators` array accumulated by `analyzeRequest`, in source push order. -/
def commercialIndicatorsOf (blockedEntities : List Str) (req : Request) : List Str :=
  let userAgent := lowerStr (jsStr req.userAgent)
  let referer := lowerStr (jsStr req.referer)
  (commercialIndicators.filter (fun ind => strIncludes userAgent ind)).map
      (fun ind => "user_agent:".toList ++ ind)
    ++ (if referer.isEmpty then []
        else (commercialIndicators.filter (fun ind => strIncludes referer ind)).map
          (fun ind => "referer:".toList ++ ind))
    ++ (if !referer.isEmpty && businessDomains.any (fun d => strIncludes referer d)
        then ["business_domain_referer".toList] else [])
    ++ (if req.method == "POST".toList && strIncludes req.path "api".toList
        then ["api_usage_pattern".toList] else [])
    ++ (if automationTools.any (fun t => strIncludes userAgent t)
        then ["automation_tool".toList] else [])
    ++ (if req.ip ∈ blockedEntities then ["previously_blocked".toList] else [])

/-- The analysis object returned by `CommercialProtection.analyzeRequest`. -/
structure Analysis where
  ip : Str
  commercialScore : Nat
  indicators : List Str
  timestamp : Nat
  suspiciousCommercial : Bool
  violatesLicense : Bool
  requiresMonitoring : Bool
  userAgent : Option Str
  referer : Option Str
deriving DecidableEq, Repr

/-- `CommercialProtection.analyzeRequest`.  The three flags are the source's
threshold comparisons `commercialScore >= 4`, `>= 6` and `>= 2`. -/
def analyzeRequest (blockedEntities : List Str) (req : Request) (now : Nat) : Analysis :=
  { ip := req.ip
    commercialScore := commercialScoreOf blockedEntities req
    indicators := commercialIndicatorsOf blockedEntities req
    timestamp := now
    suspiciousCommercial := decide (4 ≤ commercialScoreOf blockedEntities req)
    violatesLicense := decide (6 ≤ commercialScoreOf blockedEntities req)
    requiresMonitoring := decide (2 ≤ commercialScoreOf blockedEntities req)
    userAgent := req.userAgent
    referer := req.referer }

/-- The per-source record built by `logSuspiciousActivity`:
`{ firstSeen, requestCount, lastSeen, indicators: Set }`. -/
structure ActivityRecord where
  firstSeen : Nat
  requestCount : Nat
  lastSeen : Nat
  indicators : List Str
deriving DecidableEq, Repr

/-- What a value stored in the `suspiciousActivity` map can be: the raw analysis
object (stored whole by `handleSuspiciousActivity`), an activity record (stored by
`logSuspiciousActivity`), or the fresh `{}` object created by `autoInvestigate` for a
previously unseen ip. -/
inductive EntryBase
  | analysisE (a : Analysis)
  | record (r : ActivityRecord)
  | emptyObj
deriving DecidableEq, Repr

/-- A `suspiciousActivity` map value together with the `violationReport` property that
`autoInvestigate` may attach to it (the `enhanced_monitoring` flag is set exactly when
`violationReport` is present, so it is not modelled separately). -/
structure ActivityEntry where
  base : EntryBase
  violationReport : Option Str
deriving DecidableEq, Repr

/-- A violation report as built by `reportViolation`. -/
structure Report where
  id : Str
  rtype : Str
  description : Str
  evidence : List Str
  anonymous : Bool
  suspectedIp : Option Str
  timestamp : Nat
  status : Str
  publicFlag : Bool
  investigationStarted : Option Nat
deriving DecidableEq, Repr

/-- The mutable state of a `CommercialProtection` instance (the fixed
`commercialIndicators` set lives outside the state). -/
structure ProtState where
  violationReports : List (Str × Report)
  suspiciousActivity : List (Str × ActivityEntry)
  blockedEntities : List Str
deriving DecidableEq, Repr

/-- The freshly constructed `CommercialProtection` state. -/
def initProt : ProtState :=
  { violationReports := [], suspiciousActivity := [], blockedEntities := [] }

/-- A JS exception class observed by the embedding. -/
inductive JsError
  | typeError
deriving DecidableEq, Repr

/-- The in-place update of an existing activity record performed by
`logSuspiciousActivity`: `requestCount++`, `lastSeen = analysis.timestamp`, and each
analysis indicator added to the record's indicator `Set`. -/
def updateActivityRecord (r : ActivityRecord) (a : Analysis) : ActivityRecord :=
  { r with
    requestCount := r.requestCount + 1
    lastSeen := a.timestamp
    indicators := a.indicators.foldl setAdd r.indicators }

/-- The record `logSuspiciousActivity` builds for a first-seen ip:
`{ firstSeen: analysis.timestamp, requestCount: 0, indicators: new Set() }`
followed by the same in-place update. -/
def freshActivityRecord (a : Analysis) : ActivityRecord :=
  { firstSeen := a.timestamp
    requestCount := 1
    lastSeen := a.timestamp
    indicators := a.indicators.foldl setAdd [] }

/-- `CommercialProtection.logSuspiciousActivity`.  When the stored entry is a raw
analysis object, `activity.indicators` is an `Array`, so `indicators.add(...)` throws
a TypeError; when it is the bare `{}` left by `autoInvestigate`, `activity.indicators`
is `undefined` and the same line throws.  (In the source the object is partially
mutated before the throw; no theorem below depends on that partial mutation, so the
error case returns no state.) -/
def logSuspiciousActivity (st : ProtState) (a : Analysis) : Except JsError ProtState :=
  match mapGet st.suspiciousActivity a.ip with
  | none =>
      .ok { st with suspiciousActivity :=
              mapSet st.suspiciousActivity a.ip ⟨.record (freshActivityRecord a), none⟩ }
  | some e =>
      match e.base with
      | .record r =>
          let e' : ActivityEntry := { e with base := .record (updateActivityRecord r a) }
          .ok { st with suspiciousActivity := mapSet st.suspiciousActivity a.ip e' }
      | .analysisE _ => .error .typeError
      | .emptyObj => .error .typeError

/-- The observable outcome of one `monitorUsage` middleware invocation. -/
inductive MonitorResult
  | passed
  | blocked
  | threw (e : JsError)
deriving DecidableEq, Repr

/-- Outcome and post-state of one `monitorUsage` invocation. -/
structure MonitorStep where
  result : MonitorResult
  state : ProtState
deriving DecidableEq, Repr

/-- `CommercialProtection.handleSuspiciousActivity`: stores the whole analysis object
in `suspiciousActivity`, sets the three warning headers, and then evaluates
`return this.next()`.  `next` is not a property of `CommercialProtection` (the `next`
callback is a parameter of `monitorUsage` and is not passed down), so this throws a
TypeError after the map mutation. -/
def handleSuspiciousActivity (st : ProtState) (a : Analysis) : MonitorStep :=
  { result := .threw .typeError
    state := { st with suspiciousActivity :=
                 mapSet st.suspiciousActivity a.ip ⟨.analysisE a, none⟩ } }

/-- `CommercialProtection.blockCommercialViolation`: adds the ip to `blockedEntities`
and sends the 403 violation JSON. -/
def blockCommercialViolation (st : ProtState) (a : Analysis) : MonitorStep :=
  { result := .blocked
    state := { st with blockedEntities := setAdd st.blockedEntities a.ip } }

/-- `CommercialProtection.monitorUsage`.  Branch order as in the source:
`suspiciousCommercial` is tested before `violatesLicense`; since a score `>= 6` is
also `>= 4`, the `violatesLicense` branch is unreachable. -/
def monitorUsage (st : ProtState) (req : Request) (now : Nat) : MonitorStep :=
  let analysis := analyzeRequest st.blockedEntities req now
  if analysis.suspiciousCommercial then
    handleSuspiciousActivity st analysis
  else if analysis.violatesLicense then
    blockCommercialViolation st analysis
  else if analysis.requiresMonitoring then
    match logSuspiciousActivity st analysis with
    | .ok st' => { result := .passed, state := st' }
    | .error e => { result := .threw e, state := st }
  else
    { result := .passed, state := st }

/-- Caller-supplied data of `reportViolation`.  `suspectedIp` models
`reportData.suspectedEntity.ip` (`none` when that property is falsy). -/
structure ReportData where
  rtype : Option Str
  description : Str
  evidence : List Str
  anonymous : Bool
  sensitive : Bool
  suspectedIp : Option Str
deriving DecidableEq, Repr

/-- `CommercialProtection.autoInvestigate`: attaches `violationReport` (and
`enhanced_monitoring`) to the suspected ip's activity entry — creating a bare `{}`
entry when the ip is unseen — and flips the stored report's status to
`investigating`, recording `investigationStarted`. -/
def autoInvestigate (st : ProtState) (rid : Str) (suspectedIp : Option Str) (now : Nat) :
    ProtState :=
  let st1 :=
    match suspectedIp with
    | some ip =>
        let base :=
          match mapGet st.suspiciousActivity ip with
          | some e => e.base
          | none => .emptyObj
        { st with suspiciousActivity := mapSet st.suspiciousActivity ip ⟨base, some rid⟩ }
    | none => st
  match mapGet st1.violationReports rid with
  | some r =>
      let r' : Report := { r with status := "investigating".toList
                                  investigationStarted := some now }
      { st1 with violationReports := mapSet st1.violationReports rid r' }
  | none => st1

/-- `CommercialProtection.reportViolation`: stores the report (id supplied by the
caller, as `generateReportId` is random) and auto-investigates when evidence was
attached. -/
def reportViolation (st : ProtState) (rd : ReportData) (rid : Str) (now : Nat) : ProtState :=
  let report : Report :=
    { id := rid
      rtype := jsOrStr rd.rtype "license_violation".toList
      description := rd.description
      evidence := rd.evidence
      anonymous := rd.anonymous
      suspectedIp := rd.suspectedIp
      timestamp := now
      status := "under_investigation".toList
      publicFlag := !rd.sensitive
      investigationStarted := none }
  let st1 := { st with violationReports := mapSet st.violationReports rid report }
  if rd.evidence.isEmpty then st1
  else autoInvestigate st1 rid rd.suspectedIp now

/-- One state-mutating operation of a `CommercialProtection` instance.  The remaining
methods (`getProtectionReport`, `getViolationCategories`, `getHealthStatus`) only read
the state. -/
inductive ProtOp
  | monitor (req : Request) (now : Nat)
  | report (rd : ReportData) (rid : Str) (now : Nat)
deriving Repr

/-- The state reached after one `CommercialProtection` operation. -/
def protStep (st : ProtState) : ProtOp → ProtState
  | .monitor req now => (monitorUsage st req now).state
  | .report rd rid now => reportViolation st rd rid now

/-! ## BotDetectionEngine (`src/core/bot-detection.js`) -/

/-- The bot user-agent pattern set of `initializeDetectionPatterns`. -/
def botPatterns : List Str :=
  (["googlebot", "bingbot", "slurp", "duckduckbot", "baiduspider",
    "yandexbot", "facebookexternalhit", "twitterbot", "linkedinbot",
    "curl", "wget", "python-requests", "node-fetch", "axios",
    "postman", "insomnia", "httpie",
    "scrapy", "selenium", "phantomjs", "headlesschrome",
    "puppeteer", "playwright", "mechanize",
    "pingdom", "uptimerobot", "newrelic", "nagios",
    "jenkins", "circleci", "github-actions"]).map String.toList

/-- The human user-agent pattern set of `initializeDetectionPatterns`. -/
def humanPatterns : List Str :=
  (["mozilla", "chrome", "firefox", "safari", "edge", "opera"]).map String.toList

/-- One entry of the bot engine's per-ip `suspiciousActivity` map
(`{ requests, lastSeen }`). -/
structure IpActivity where
  requests : Nat
  lastSeen : Nat
deriving DecidableEq, Repr

/-- The mutable state of a `BotDetectionEngine` instance. -/
structure BotState where
  suspiciousActivity : List (Str × IpActivity)
deriving DecidableEq, Repr

/-- The freshly constructed `BotDetectionEngine` state. -/
def initBot : BotState := { suspiciousActivity := [] }

/-- The analysis object returned by `performTrafficAnalysis`.  The source's float
field `confidence = botScore / (botScore + humanScore)` (`0.5` when the total is `0`)
is recomputed from `botScore` and `humanScore` where needed (`confidenceGt`) instead
of being stored. -/
structure TrafficAnalysis where
  isBot : Bool
  botScore : Nat
  humanScore : Nat
  indicators : List Str
  userAgent : Option Str
  ip : Str
  timestamp : Nat
deriving DecidableEq, Repr

/-- `confidence > num/den` where `confidence = botScore / (botScore + humanScore)`
and `0.5` when the total is `0`, embedded exactly by cross-multiplication: for a
positive total, `botScore/total > num/den  ↔  num * total < den * botScore`, and for
a zero total, `1/2 > num/den  ↔  2 * num < den` (false at the source's thresholds
0.6 and 0.7, so zero-signal requests are classified `isBot = false`). -/
def confidenceGt (botScore humanScore num den : Nat) : Bool :=
  let total := botScore + humanScore
  if total = 0 then decide (2 * num < den) else decide (num * total < den * botScore)

/-- `BotDetectionEngine.cleanOldActivity`: drop entries idle for more than 24 hours. -/
def cleanOldActivity (bst : BotState) (now : Nat) : BotState :=
  { suspiciousActivity :=
      bst.suspiciousActivity.filter (fun p => !decide (p.2.lastSeen < now - 86400000)) }

/-- The `botScore` of `performTrafficAnalysis`, clause by clause in source order:
+3 per bot pattern in the lower-cased user agent, +1 for a missing or `*/*` accept
header, +1 for a missing accept-language header, +1 for a missing referer on a `GET`,
+2 when the previous request from this ip was less than one second ago. -/
def botScoreOf (bst : BotState) (req : Request) (now : Nat) : Nat :=
  let userAgent := lowerStr (jsStr req.userAgent)
  let ipAct := (mapGet bst.suspiciousActivity req.ip).getD ⟨0, 0⟩
  3 * (botPatterns.filter (fun p => strIncludes userAgent p)).length
    + (if !jsTruthy req.accept || strIncludes (jsStr req.accept) "*/*".toList then 1 else 0)
    + (if !jsTruthy req.acceptLanguage then 1 else 0)
    + (if !jsTruthy req.referer && req.method == "GET".toList then 1 else 0)
    + (if now - ipAct.lastSeen < 1000 then 2 else 0)

/-- The `humanScore` of `performTrafficAnalysis`: +2 per human pattern in the
lower-cased user agent. -/
def humanScoreOf (req : Request) : Nat :=
  2 * (humanPatterns.filter (fun p => strIncludes (lowerStr (jsStr req.userAgent)) p)).length

/-- The `indicators` array of `performTrafficAnalysis`, in source push order. -/
def botIndicatorsOf (bst : BotState) (req : Request) (now : Nat) : List Str :=
  let userAgent := lowerStr (jsStr req.userAgent)
  let ipAct := (mapGet bst.suspiciousActivity req.ip).getD ⟨0, 0⟩
  (botPatterns.filter (fun p => strIncludes userAgent p)).map
      (fun p => "bot_pattern:".toList ++ p)
    ++ (humanPatterns.filter (fun p => strIncludes userAgent p)).map
      (fun p => "human_pattern:".toList ++ p)
    ++ (if !jsTruthy req.accept || strIncludes (jsStr req.accept) "*/*".toList
        then ["generic_accept_header".toList] else [])
    ++ (if !jsTruthy req.acceptLanguage then ["missing_accept_language".toList] else [])
    ++ (if !jsTruthy req.referer && req.method == "GET".toList
        then ["missing_referer".toList] else [])
    ++ (if now - ipAct.lastSeen < 1000 then ["rapid_requests".toList] else [])

/-- `BotDetectionEngine.performTrafficAnalysis`.  The source runs `cleanOldActivity`
with probability 1% (`Math.random() < 0.01`); that random draw is the explicit
parameter `randomCleans`.  `isBot` is the source's `confidence > 0.6`. -/
def performTrafficAnalysis (bst : BotState) (req : Request) (now : Nat)
    (randomCleans : Bool) : TrafficAnalysis × BotState :=
  let botScore := botScoreOf bst req now
  let humanScore := humanScoreOf req
  let ipAct := (mapGet bst.suspiciousActivity req.ip).getD ⟨0, 0⟩
  let bst1 : BotState :=
    { suspiciousActivity :=
        mapSet bst.suspiciousActivity req.ip ⟨ipAct.requests + 1, now⟩ }
  let bst2 := if randomCleans then cleanOldActivity bst1 now else bst1
  ({ isBot := confidenceGt botScore humanScore 3 5
     botScore := botScore
     humanScore := humanScore
     indicators := botIndicatorsOf bst req now
     userAgent := req.userAgent
     ip := req.ip
     timestamp := now }, bst2)

/-- The `legitimateCrawlers` allowlist of `shouldRedirect`. -/
def legitimateCrawlers : List Str :=
  (["googlebot", "bingbot", "slurp", "duckduckbot"]).map String.toList

/-- The `monitoringServices` allowlist of `shouldRedirect`. -/
def monitoringServices : List Str :=
  (["pingdom", "uptimerobot", "newrelic"]).map String.toList

/-- `BotDetectionEngine.shouldRedirect`.  Without ethical filtering it returns
`analysis.isBot`; with it, an allowlisted crawler or monitoring service in the
lower-cased user agent always yields `false`, and otherwise redirection requires
`isBot` and `confidence > 0.7`. -/
def shouldRedirect (ethicalFiltering : Bool) (a : TrafficAnalysis) (req : Request) : Bool :=
  if !ethicalFiltering then a.isBot
  else
    let userAgent := lowerStr (jsStr req.userAgent)
    if legitimateCrawlers.any (fun c => strIncludes userAgent c) then false
    else if monitoringServices.any (fun s => strIncludes userAgent s) then false
    else a.isBot && confidenceGt a.botScore a.humanScore 7 10

/-- Outcome of the request middleware chain installed by
`SpraxXXXPantry.setupMiddleware`: the bot-detection verdict and post-state, whether
the request was redirected to charitable computation, and — when `analyzeTraffic`
called `next()` — the `monitorUsage` step that the commercial-protection middleware
then executed. -/
structure PipelineOut where
  analysis : TrafficAnalysis
  botState : BotState
  redirected : Bool
  commercial : Option MonitorStep
deriving DecidableEq, Repr

/-- The middleware chain of `setupMiddleware`: `analyzeTraffic` (which redirects iff
`analysis.isBot && shouldRedirect(...)`) followed, whenever `next()` is called, by
`commercialProtection.monitorUsage`. -/
def pipeline (ethicalFiltering : Bool) (bst : BotState) (cst : ProtState) (req : Request)
    (now : Nat) (randomCleans : Bool) : PipelineOut :=
  let p := performTrafficAnalysis bst req now randomCleans
  if p.1.isBot && shouldRedirect ethicalFiltering p.1 req then
    { analysis := p.1, botState := p.2, redirected := true, commercial := none }
  else
    { analysis := p.1, botState := p.2, redirected := false,
      commercial := some (monitorUsage cst req now) }

/-! ## CharitableAllocation (`src/core/charitable-allocation.js`) -/

/-- A project's `transparencyPlan` object (`none` models an absent plan). -/
structure TransparencyPlan where
  publicReporting : Bool
  impactSharing : Bool
  communityUpdates : Bool
deriving DecidableEq, Repr

/-- The caller-supplied project submission data.  String fields are `''` when the
caller omitted them (JS `undefined` and `''` are equally falsy in the validation). -/
structure ProjectData where
  nonprofitId : Str
  projectName : Str
  description : Str
  computationalRequirements : Str
  publicBenefitGoals : Str
  timelineExpectations : Str
  impactMeasurements : Str
  transparencyPlan : Option TransparencyPlan
deriving DecidableEq, Repr

/-- A nonprofit-registry entry, reduced to the fields the allocator reads back
(`status` is `'pending_verification'` on registration and `'verified'` only after the
out-of-scope manual review). -/
structure Nonprofit where
  organizationName : Str
  status : Str
deriving DecidableEq, Repr

/-- A stored project-queue entry.  `priority60` is the source's float `priority`
in exact units of 1/60 (see the file header). -/
structure Project where
  id : Str
  nonprofitId : Str
  projectName : Str
  status : Str
  submissionDate : Nat
  priority60 : Nat
deriving DecidableEq, Repr

/-- The mutable state of a `CharitableAllocation` instance (`allocationHistory` and
`impactMetrics` are never written by the modelled operations and are omitted). -/
structure AllocState where
  nonprofitRegistry : List (Str × Nonprofit)
  projectQueue : List Project
deriving DecidableEq, Repr

/-- The freshly constructed `CharitableAllocation` state. -/
def initAlloc : AllocState := { nonprofitRegistry := [], projectQueue := [] }

/-- The `benefitKeywords` of `calculateProjectPriority`. -/
def benefitKeywords : List Str :=
  (["education", "health", "environment", "poverty", "research", "humanitarian"]).map
    String.toList

/-- The `urgencyKeywords` of `calculateProjectPriority`. -/
def urgencyKeywords : List Str :=
  (["urgent", "critical", "emergency", "immediate"]).map String.toList

/-- `CharitableAllocation.calculateProjectPriority` in units of 1/60.  The configured
factors {publicBenefit 0.4, nonprofitStatus 0.2, transparency 0.2, communitySupport
0.1, impactPotential 0.1} are {24, 12, 12, 6, 6}/60; the public-benefit term
`(matches/6) * 0.4` is `matches * 4` sixtieths, the unconditional community-support
term `0.1 * 0.5` is `3` sixtieths, and the final `Math.min(score, 1.0)` caps at 60. -/
def calculateProjectPriority (registry : List (Str × Nonprofit)) (pd : ProjectData) : Nat :=
  let benefitMatches :=
    (benefitKeywords.filter (fun k => strIncludes (lowerStr pd.publicBenefitGoals) k)).length
  let s2 :=
    match mapGet registry pd.nonprofitId with
    | some np => if np.status == "verified".toList then 12 else 0
    | none => 0
  let s3 :=
    match pd.transparencyPlan with
    | some tp => if tp.publicReporting && tp.impactSharing && tp.communityUpdates
                 then 12 else 0
    | none => 0
  let s5 :=
    if urgencyKeywords.any (fun k => strIncludes (lowerStr pd.description) k) then 6 else 0
  min (benefitMatches * 4 + s2 + s3 + 3 + s5) 60

/-- The validation failures `validateProjectSubmission` can throw. -/
inductive SubmitError
  | missingFields (missing : List Str)
  | unverifiedNonprofit
  | shortBenefitGoals
  | inadequateTransparencyPlan
deriving DecidableEq, Repr

/-- The `required.filter(field => !data[field])` pass of `validateProjectSubmission`,
in the source's field order. -/
def missingProjectFields (pd : ProjectData) : List Str :=
  ((([("nonprofitId", !pd.nonprofitId.isEmpty),
      ("projectName", !pd.projectName.isEmpty),
      ("description", !pd.description.isEmpty),
      ("computationalRequirements", !pd.computationalRequirements.isEmpty),
      ("publicBenefitGoals", !pd.publicBenefitGoals.isEmpty),
      ("impactMeasurements", !pd.impactMeasurements.isEmpty),
      ("transparencyPlan", pd.transparencyPlan.isSome)] : List (String × Bool)).filter
    (fun f => !f.2)).map (fun f => f.1.toList))

/-- The nonprofit check of `validateProjectSubmission`: the registry holds the id and
the entry's status is `'verified'` (the source throws when
`!nonprofit || nonprofit.status !== 'verified'`). -/
def nonprofitVerified (registry : List (Str × Nonprofit)) (npid : Str) : Bool :=
  match mapGet registry npid with
  | some np => np.status == "verified".toList
  | none => false

/-- The transparency check of `validateProjectSubmission`: both
`transparencyPlan.publicReporting` and `transparencyPlan.impactSharing` are truthy. -/
def transparencyPlanOk : Option TransparencyPlan → Bool
  | some tp => tp.publicReporting && tp.impactSharing
  | none => false

/-- `CharitableAllocation.validateProjectSubmission`, check for check in source
order: required fields, verified nonprofit, 200-character benefit goals, transparency
plan with `publicReporting` and `impactSharing`.  `none` means validation passed. -/
def validateProjectSubmission (registry : List (Str × Nonprofit)) (pd : ProjectData) :
    Option SubmitError :=
  if !(missingProjectFields pd).isEmpty then some (.missingFields (missingProjectFields pd))
  else if !nonprofitVerified registry pd.nonprofitId then some .unverifiedNonprofit
  else if pd.publicBenefitGoals.length < 200 then some .shortBenefitGoals
  else if !transparencyPlanOk pd.transparencyPlan then some .inadequateTransparencyPlan
  else none

/-- The order maintained by `sortProjectQueue`'s comparator
`(a, b) => b.priority - a.priority, then new Date(a.submissionDate) - new
Date(b.submissionDate)`: higher priority first, ties by earlier submission. -/
def queueLE (a b : Project) : Prop :=
  b.priority60 < a.priority60 ∨
    (a.priority60 = b.priority60 ∧ a.submissionDate ≤ b.submissionDate)

instance : DecidableRel queueLE := fun a b => by
  unfold queueLE; infer_instance

instance : IsTotal Project queueLE := ⟨by
  intro a b; unfold queueLE; omega⟩

instance : IsTrans Project queueLE := ⟨by
  intro a b c; unfold queueLE; omega⟩

/-- `CharitableAllocation.sortProjectQueue`: a stable sort of the queue by
`queueLE` (the source sorts in place with `Array.prototype.sort`, which is a stable
comparison sort). -/
def sortProjectQueue (q : List Project) : List Project :=
  List.insertionSort queueLE q

/-- Outcome and post-state of one `submitProject` call (a thrown validation error
leaves the instance untouched, since the queue push happens after validation). -/
structure SubmitOut where
  outcome : Except SubmitError Project
  state : AllocState
deriving Repr

/-- `CharitableAllocation.submitProject`: validate, build the project (id and
timestamp supplied by the caller, as `generateProjectId` / `new Date()` are
nondeterministic), push it onto the queue and re-sort. -/
def submitProject (st : AllocState) (pd : ProjectData) (pid : Str) (now : Nat) :
    SubmitOut :=
  match validateProjectSubmission st.nonprofitRegistry pd with
  | some e => { outcome := .error e, state := st }
  | none =>
      let project : Project :=
        { id := pid
          nonprofitId := pd.nonprofitId
          projectName := pd.projectName
          status := "submitted".toList
          submissionDate := now
          priority60 := calculateProjectPriority st.nonprofitRegistry pd }
      { outcome := .ok project
        state := { st with projectQueue := sortProjectQueue (st.projectQueue ++ [project]) } }

/-- Caller-supplied nonprofit registration data.  `documentation` is the list of
documentation-type names that the submitted `documentation` object holds truthy
values for. -/
structure RegistrationData where
  organizationName : Str
  missionStatement : Str
  nonprofitStatus : Str
  documentation : List Str
  contactInformation : Str
  publicBenefitDescription : Str
  transparencyCommitment : Bool
deriving DecidableEq, Repr

/-- `config.nonprofitVerification.documentationTypes` of `charitable.config.js`. -/
def documentationTypes : List Str :=
  (["501c3_determination_letter", "charity_registration", "nonprofit_articles",
    "mission_statement", "financial_transparency"]).map String.toList

/-- The validation failures `validateNonprofitRegistration` can throw. -/
inductive RegisterError
  | missingFields
  | invalidDocumentation
  | noTransparencyCommitment
  | shortBenefitDescription
deriving DecidableEq, Repr

/-- `CharitableAllocation.validateNonprofitRegistration`, check for check in source
order. -/
def validateNonprofitRegistration (rd : RegistrationData) : Option RegisterError :=
  if rd.organizationName.isEmpty || rd.missionStatement.isEmpty
      || rd.nonprofitStatus.isEmpty || rd.documentation.isEmpty
      || rd.contactInformation.isEmpty || rd.publicBenefitDescription.isEmpty
      || !rd.transparencyCommitment then
    some .missingFields
  else if !documentationTypes.any (fun t => rd.documentation.contains t) then
    some .invalidDocumentation
  else if !rd.transparencyCommitment then
    some .noTransparencyCommitment
  else if rd.publicBenefitDescription.length < 100 then
    some .shortBenefitDescription
  else none

/-- `CharitableAllocation.registerNonprofit`: validate, then store the registration
with status `pending_verification`.  A thrown validation error leaves the state
unchanged. -/
def registerNonprofit (st : AllocState) (rd : RegistrationData) (rid : Str) :
    Except RegisterError AllocState :=
  match validateNonprofitRegistration rd with
  | some e => .error e
  | none =>
      let np : Nonprofit := ⟨rd.organizationName, "pending_verification".toList⟩
      .ok { st with nonprofitRegistry := mapSet st.nonprofitRegistry rid np }

/-- One state-mutating operation of a `CharitableAllocation` instance (the remaining
methods only read the state). -/
inductive AllocOp
  | submit (pd : ProjectData) (pid : Str) (now : Nat)
  | register (rd : RegistrationData) (rid : Str)
deriving Repr

/-- The state reached after one `CharitableAllocation` operation (a thrown
validation error leaves the state as it was). -/
def allocStep (st : AllocState) : AllocOp → AllocState
  | .submit pd pid now => (submitProject st pd pid now).state
  | .register rd rid =>
      match registerNonprofit st rd rid with
      | .ok st' => st'
      | .error _ => st

/-! ## Definitions modelled from the spec (missing from the source snapshot) -/

/-- Modelled from the spec: `dispatchNext(capacity)` of the Priority Allocator
(design §4.3) does not appear anywhere in the source snapshot — `CharitableAllocation`
only maintains the sorted `projectQueue`.  Following the spec's words: pop up to
`capacity` items from the front of the sorted queue, mark them `DISPATCHED`, return
them in dispatch order; an empty queue yields the empty sequence. -/
def dispatchNext (capacity : Nat) (st : AllocState) : List Project × AllocState :=
  ((st.projectQueue.take capacity).map (fun p => { p with status := "DISPATCHED".toList }),
   { st with projectQueue := st.projectQueue.drop capacity })

/-- Modelled from the spec: one fold step of the cumulative commercial score with
lazy multiplicative decay, `score_before * decayFactor^(elapsedHours)` with the
default `decayFactor = 0.98` per hour, after which the new verdict's
`commercialScore` is added.  No such accumulator exists in the source; this
definition exists only to state what the spec predicts. -/
def specDecayStep (scoreBefore : ℚ) (elapsedHours : Nat) (verdictScore : ℚ) : ℚ :=
  scoreBefore * (98 / 100 : ℚ) ^ elapsedHours + verdictScore

/-! ## Concrete inputs used by counterexamples and witnesses -/

/-- A `GET /` whose user agent contains the commercial indicators `profit` and
`sales` and nothing else: `commercialScore = 4`, the suspicious range. -/
def reqProfitSales : Request :=
  { userAgent := some "profit sales".toList
    referer := none
    accept := some "text/html".toList
    acceptLanguage := some "en".toList
    ip := "203.0.113.5".toList
    method := "GET".toList
    path := "/".toList }

/-- A typical Googlebot crawl request: allowlisted user agent, no browser headers. -/
def reqGooglebot : Request :=
  { userAgent := some "Googlebot/2.1".toList
    referer := none
    accept := none
    acceptLanguage := none
    ip := "66.249.66.1".toList
    method := "GET".toList
    path := "/".toList }

/-- A Pingdom monitoring probe (allowlisted monitoring service). -/
def reqPingdom : Request :=
  { userAgent := some "Pingdom.com_bot_version_1.4".toList
    referer := none
    accept := none
    acceptLanguage := none
    ip := "198.18.0.2".toList
    method := "GET".toList
    path := "/".toList }

/-- An entirely benign browser-like request sent from an ip that is already in
`blockedEntities`: its only score contribution is the +5 `previously_blocked`. -/
def reqBenignBlocked : Request :=
  { userAgent := some "Mozilla/5.0".toList
    referer := none
    accept := some "text/html".toList
    acceptLanguage := some "en".toList
    ip := "198.51.100.9".toList
    method := "GET".toList
    path := "/".toList }

/-- A `CommercialProtection` state in which `198.51.100.9` has already been blocked. -/
def blockedProt : ProtState :=
  { violationReports := [], suspiciousActivity := [],
    blockedEntities := ["198.51.100.9".toList] }

/-- A request whose user agent contains only the commercial indicator `scale`:
`commercialScore = 2`, the monitoring range, so each `monitorUsage` call folds it
into the suspicious-activity record. -/
def reqScale : Request :=
  { userAgent := some "scale".toList
    referer := none
    accept := some "text/html".toList
    acceptLanguage := some "en".toList
    ip := "192.0.2.7".toList
    method := "GET".toList
    path := "/".toList }

/-- One hour in `Date.now()` milliseconds. -/
def hourMs : Nat := 3600000

/-- The `CommercialProtection` state after folding `reqScale` at times 0, 1h and 4h
(elapsed gaps of 1 hour and 3 hours). -/
def foldHistoryA : ProtState :=
  (monitorUsage (monitorUsage (monitorUsage initProt reqScale 0).state
    reqScale (1 * hourMs)).state reqScale (4 * hourMs)).state

/-- The `CommercialProtection` state after folding `reqScale` at times 0, 2h and 4h
(elapsed gaps of 2 hours and 2 hours). -/
def foldHistoryB : ProtState :=
  (monitorUsage (monitorUsage (monitorUsage initProt reqScale 0).state
    reqScale (2 * hourMs)).state reqScale (4 * hourMs)).state

/-- The cumulative score the spec's decay rule predicts after history A
(verdict score 2 at each fold, gaps of 1 hour and 3 hours). -/
def specCumA : ℚ := specDecayStep (specDecayStep (specDecayStep 0 0 2) 1 2) 3 2

/-- The cumulative score the spec's decay rule predicts after history B
(verdict score 2 at each fold, gaps of 2 hours and 2 hours). -/
def specCumB : ℚ := specDecayStep (specDecayStep (specDecayStep 0 0 2) 2 2) 2 2

/-- A human browser request (`isBot = false`) whose referer contains the commercial
indicator `market`: `commercialScore = 3`, the monitoring range. -/
def reqHumanMarket : Request :=
  { userAgent := some "Mozilla/5.0 Chrome Safari".toList
    referer := some "https://market.example.org/".toList
    accept := some "text/html".toList
    acceptLanguage := some "en-CA".toList
    ip := "192.0.2.44".toList
    method := "GET".toList
    path := "/".toList }

/-- A benefit-goals text containing all six benefit keywords, 236 characters long
(above the 200-character validation minimum). -/
def goalsAllKeywords : Str :=
  ("education health environment poverty research humanitarian "
    ++ "education health environment poverty research humanitarian "
    ++ "education health environment poverty research humanitarian "
    ++ "education health environment poverty research humanitarian ").toList

/-- An allocator state holding one verified nonprofit, `NPR-1`. -/
def allocVerified : AllocState :=
  { nonprofitRegistry := [("NPR-1".toList, ⟨"Helpers".toList, "verified".toList⟩)]
    projectQueue := [] }

/-- A fully satisfying submission for `NPR-1`: every benefit keyword present,
complete transparency plan, no urgency keywords in the description. -/
def pdFull : ProjectData :=
  { nonprofitId := "NPR-1".toList
    projectName := "Community learning".toList
    description := "Provide learning resources to schools.".toList
    computationalRequirements := "batch".toList
    publicBenefitGoals := goalsAllKeywords
    timelineExpectations := "3 months".toList
    impactMeasurements := "students reached".toList
    transparencyPlan := some ⟨true, true, true⟩ }

/-- A submission identical to `pdFull` except that its nonprofit id is unknown. -/
def pdUnknownNp : ProjectData :=
  { pdFull with nonprofitId := "NPR-MISSING".toList }

/-- An allocator state with a two-element queue already in `sortProjectQueue` order. -/
def queueTwo : AllocState :=
  { nonprofitRegistry := []
    projectQueue :=
      [⟨"P1".toList, "N".toList, "A".toList, "submitted".toList, 5, 50⟩,
       ⟨"P2".toList, "N".toList, "B".toList, "submitted".toList, 3, 40⟩] }

/-! ## Helper lemmas -/

theorem setAdd_mem {s : List Str} {x : Str} (y : Str) (h : x ∈ s) : x ∈ setAdd s y := by
  unfold setAdd
  split
  · exact h
  · exact List.mem_append.mpr (Or.inl h)

/-- A blocked source ip alone contributes 5 points to every fresh commercial score. -/
theorem commercialScoreOf_blocked (blocked : List Str) (req : Request)
    (h : req.ip ∈ blocked) : 5 ≤ commercialScoreOf blocked req := by
  simp only [commercialScoreOf]
  rw [if_pos h]
  omega

/-- A blocked source ip is tagged `previously_blocked` in every fresh analysis. -/
theorem previouslyBlocked_indicator (blocked : List Str) (req : Request)
    (h : req.ip ∈ blocked) :
    "previously_blocked".toList ∈ commercialIndicatorsOf blocked req := by
  unfold commercialIndicatorsOf
  rw [if_pos h]
  simp [List.mem_append]

/-- `logSuspiciousActivity` never touches `blockedEntities`. -/
theorem logSuspiciousActivity_blockedEntities (st : ProtState) (a : Analysis)
    (st' : ProtState) (h : logSuspiciousActivity st a = .ok st') :
    st'.blockedEntities = st.blockedEntities := by
  unfold logSuspiciousActivity at h
  split at h
  · injection h with h'
    rw [← h']
  · split at h
    · injection h with h'
      rw [← h']
    · exact absurd h (by simp)
    · exact absurd h (by simp)

/-- No branch of `monitorUsage` removes an ip from `blockedEntities`. -/
theorem monitorUsage_blockedEntities_mono (st : ProtState) (req : Request) (now : Nat)
    {ip : Str} (h : ip ∈ st.blockedEntities) :
    ip ∈ (monitorUsage st req now).state.blockedEntities := by
  simp only [monitorUsage, handleSuspiciousActivity, blockCommercialViolation]
  split
  · exact h
  · split
    · exact setAdd_mem _ h
    · split
      · split
        · rename_i st' heq
          rw [logSuspiciousActivity_blockedEntities st _ st' heq]
          exact h
        · exact h
      · exact h

/-- `reportViolation` (with its conditional `autoInvestigate`) never touches
`blockedEntities`. -/
theorem reportViolation_blockedEntities (st : ProtState) (rd : ReportData) (rid : Str)
    (now : Nat) : (reportViolation st rd rid now).blockedEntities = st.blockedEntities := by
  simp only [reportViolation, autoInvestigate]
  split
  · rfl
  · split <;> split <;> rfl

/-- The nonprofit check of `validateProjectSubmission`: when validation passes, the
submitted nonprofit id resolves to a registry entry whose status is `verified`. -/
theorem validateProjectSubmission_none_verified (registry : List (Str × Nonprofit))
    (pd : ProjectData) (h : validateProjectSubmission registry pd = none) :
    ∃ np, mapGet registry pd.nonprofitId = some np ∧ np.status = "verified".toList := by
  unfold validateProjectSubmission at h
  split_ifs at h with h1 h2 h3 h4
  all_goals try simp at h
  simp only [Bool.not_eq_true, Bool.not_eq_false] at h2
  unfold nonprofitVerified at h2
  rcases hm : mapGet registry pd.nonprofitId with _ | np
  · rw [hm] at h2
    simp at h2
  · rw [hm] at h2
    exact ⟨np, rfl, by simpa using h2⟩

/-- `registerNonprofit` never touches the project queue. -/
theorem registerNonprofit_projectQueue (st : AllocState) (rd : RegistrationData)
    (rid : Str) (st' : AllocState) (h : registerNonprofit st rd rid = .ok st') :
    st'.projectQueue = st.projectQueue := by
  simp only [registerNonprofit] at h
  split at h
  · exact absurd h (by simp)
  · injection h with h'
    rw [← h']

/-! ## Claim theorems -/

/-- C1: the spec claims the classification-and-fold pipeline (`monitorUsage`) returns
normally for every request, in particular in the suspicious range `[4, 6)`.  The code
slips: `handleSuspiciousActivity` is written to warn and continue (its own comment
says `Continue with enhanced monitoring`), but it ends with `return this.next()` and
`next` is not a property of `CommercialProtection` — the middleware `next` callback is
a parameter of `monitorUsage` that is never passed down — so every request in the
warning range throws a TypeError.  This theorem evaluates the code at the failing
input `reqProfitSales` (`commercialScore = 4`). -/
theorem monitorUsage_warning_branch_throws :
    (analyzeRequest initProt.blockedEntities reqProfitSales 1000).commercialScore = 4 ∧
    (analyzeRequest initProt.blockedEntities reqProfitSales 1000).suspiciousCommercial
      = true ∧
    (analyzeRequest initProt.blockedEntities reqProfitSales 1000).violatesLicense
      = false ∧
    (monitorUsage initProt reqProfitSales 1000).result = .threw .typeError := by
  decide

/-- C2 counterexample: the claim says a request whose user agent identifies an
allowlisted agent (e.g. googlebot) short-circuits classification to `isBot = false`.
In the code there is no such short-circuit: `googlebot` is itself a bot pattern, so a
plain Googlebot request is classified `isBot = true` by `performTrafficAnalysis`.
(The allowlist lives in `shouldRedirect`, which only suppresses redirection.) -/
theorem googlebot_classified_as_bot :
    strIncludes (lowerStr (jsStr reqGooglebot.userAgent)) "googlebot".toList = true ∧
    (performTrafficAnalysis initBot reqGooglebot 50000 false).1.isBot = true := by
  decide

/-- C2 as amended: classification never short-circuits on the allowlist; instead,
with ethical filtering enabled, `shouldRedirect` returns `false` for every request
whose lower-cased user agent contains an allowlisted crawler or monitoring-service
name, whatever the verdict and every other signal, so such agents are never
redirected.  (The commercial score is computed independently by
`CommercialProtection` and does not consult this allowlist at all.) -/
theorem shouldRedirect_false_for_allowlisted (a : TrafficAnalysis) (req : Request)
    (h : (legitimateCrawlers ++ monitoringServices).any
        (fun c => strIncludes (lowerStr (jsStr req.userAgent)) c) = true) :
    shouldRedirect true a req = false := by
  rw [List.any_append] at h
  simp only [shouldRedirect, Bool.not_true, Bool.false_eq_true, if_false]
  rcases Bool.or_eq_true_iff.mp h with h1 | h2
  · simp [h1]
  · cases hleg : legitimateCrawlers.any
        (fun c => strIncludes (lowerStr (jsStr req.userAgent)) c)
    · simp [hleg, h2]
    · simp [hleg]

/-- C2 witness: a Pingdom probe is never redirected. -/
theorem shouldRedirect_false_for_allowlisted_witness :
    shouldRedirect true (performTrafficAnalysis initBot reqPingdom 50000 false).1
      reqPingdom = false :=
  shouldRedirect_false_for_allowlisted _ _ (by decide)

/-- C3 counterexample: the claim says that once a source is blocked every subsequent
request is auto-rejected by a fast path without re-scoring and without touching the
source's record.  In the code a blocked ip is fully re-scored (+5 for
`previously_blocked`): an otherwise benign request scores exactly 5, which lands in
the suspicious branch — so the request is not rejected (no 403), the suspicious
activity record is overwritten with the fresh analysis, and the branch then throws
the `this.next()` TypeError. -/
theorem blocked_source_rescored_and_not_rejected :
    (analyzeRequest blockedProt.blockedEntities reqBenignBlocked 2000).commercialScore
      = 5 ∧
    (monitorUsage blockedProt reqBenignBlocked 2000).result = .threw .typeError ∧
    ¬ (monitorUsage blockedProt reqBenignBlocked 2000).result = .blocked ∧
    ¬ (monitorUsage blockedProt reqBenignBlocked 2000).state.suspiciousActivity
        = blockedProt.suspiciousActivity := by
  decide

/-- C3 as amended: once an ip is in `blockedEntities`, every subsequent request from
it is re-scored from scratch with a +5 `previously_blocked` contribution; that alone
makes the verdict suspicious (score ≥ 5 ≥ 4), so the request always takes the
warning branch — never the 403 fast rejection — which overwrites the ip's
suspicious-activity entry with the raw analysis and throws the `this.next()`
TypeError. -/
theorem blocked_source_always_rescored_suspicious (st : ProtState) (req : Request)
    (now : Nat) (h : req.ip ∈ st.blockedEntities) :
    5 ≤ (analyzeRequest st.blockedEntities req now).commercialScore ∧
    (analyzeRequest st.blockedEntities req now).suspiciousCommercial = true ∧
    (monitorUsage st req now).result = .threw .typeError ∧
    (monitorUsage st req now).state.suspiciousActivity =
      mapSet st.suspiciousActivity req.ip
        ⟨.analysisE (analyzeRequest st.blockedEntities req now), none⟩ := by
  have hs := commercialScoreOf_blocked st.blockedEntities req h
  have hsusp : (analyzeRequest st.blockedEntities req now).suspiciousCommercial = true := by
    simp only [analyzeRequest, decide_eq_true_iff]
    omega
  refine ⟨hs, hsusp, ?_, ?_⟩
  · simp [monitorUsage, hsusp, handleSuspiciousActivity]
  · simp only [monitorUsage]
    rw [show (analyzeRequest st.blockedEntities req now).suspiciousCommercial = true
          from hsusp]
    simp [handleSuspiciousActivity, analyzeRequest]

/-- C3 witness: the amended statement evaluated at the blocked ip `198.51.100.9`. -/
theorem blocked_source_always_rescored_suspicious_witness :
    5 ≤ (analyzeRequest blockedProt.blockedEntities reqBenignBlocked 7777).commercialScore ∧
    (analyzeRequest blockedProt.blockedEntities reqBenignBlocked 7777).suspiciousCommercial
      = true ∧
    (monitorUsage blockedProt reqBenignBlocked 7777).result = .threw .typeError ∧
    (monitorUsage blockedProt reqBenignBlocked 7777).state.suspiciousActivity =
      mapSet blockedProt.suspiciousActivity reqBenignBlocked.ip
        ⟨.analysisE (analyzeRequest blockedProt.blockedEntities reqBenignBlocked 7777),
         none⟩ :=
  blocked_source_always_rescored_suspicious blockedProt reqBenignBlocked 7777 (by decide)

/-- C4 counterexample: the claim says each fold first decays a stored cumulative
commercial score by `0.98^elapsedHours` and then adds the verdict's score.  The code
keeps no such accumulator: the per-source record is only
`{firstSeen, requestCount, lastSeen, indicators}`.  Two three-fold histories of the
same verdict (score 2) with different hour gaps (1 then 3, versus 2 then 2) end in
literally identical `CommercialProtection` states, while the spec's decay rule
predicts different cumulative scores for them — so no function of the stored state
can realise the claimed score (not even one recomputing it from the stored
timestamps). -/
theorem no_stored_cumulative_decayed_score :
    foldHistoryA = foldHistoryB ∧ specCumA ≠ specCumB ∧
    ¬ ∃ sc : ProtState → ℚ, sc foldHistoryA = specCumA ∧ sc foldHistoryB = specCumB := by
  have hAB : foldHistoryA = foldHistoryB := by decide
  have hne : specCumA ≠ specCumB := by
    unfold specCumA specCumB specDecayStep
    norm_num
  exact ⟨hAB, hne, fun ⟨sc, h1, h2⟩ => hne (by rw [← h1, ← h2, hAB])⟩

/-- C4 as amended: a fold in the monitoring range stores no commercial score and
applies no decay.  For a first-seen source the stored entry becomes
`freshActivityRecord`; for an existing record it becomes `updateActivityRecord`
(`requestCount + 1`, `lastSeen := now`, indicator strings merged into the set,
`firstSeen` kept); and the updated record depends on the fold time only through
`lastSeen` — folding the same request at any two times yields records that differ in
`lastSeen` alone, which is incompatible with any multiplicative decay of a stored
score. -/
theorem fold_stores_no_score (st : ProtState) (req : Request) (now : Nat)
    (hmon : (analyzeRequest st.blockedEntities req now).requiresMonitoring = true)
    (hsus : (analyzeRequest st.blockedEntities req now).suspiciousCommercial = false) :
    (mapGet st.suspiciousActivity req.ip = none →
      (monitorUsage st req now).state.suspiciousActivity =
        mapSet st.suspiciousActivity req.ip
          ⟨.record (freshActivityRecord (analyzeRequest st.blockedEntities req now)),
           none⟩) ∧
    (∀ e r, mapGet st.suspiciousActivity req.ip = some e → e.base = .record r →
      (monitorUsage st req now).state.suspiciousActivity =
        mapSet st.suspiciousActivity req.ip
          ({ e with base :=
              .record (updateActivityRecord r
                (analyzeRequest st.blockedEntities req now)) })) ∧
    (∀ (r : ActivityRecord) (b : List Str) (req' : Request) (n₁ n₂ : Nat),
      updateActivityRecord r (analyzeRequest b req' n₁) =
        { updateActivityRecord r (analyzeRequest b req' n₂) with lastSeen := n₁ }) := by
  have hviol : (analyzeRequest st.blockedEntities req now).violatesLicense = false := by
    simp only [analyzeRequest, decide_eq_false_iff_not] at hsus ⊢
    omega
  refine ⟨?_, ?_, ?_⟩
  · intro hnone
    simp only [monitorUsage, hsus, hviol, hmon, if_true, if_false, Bool.false_eq_true,
      logSuspiciousActivity]
    rw [show (analyzeRequest st.blockedEntities req now).ip = req.ip from rfl, hnone]
  · intro e r he hr
    obtain ⟨eb, evr⟩ := e
    cases hr
    simp only [monitorUsage, hsus, hviol, hmon, if_true, if_false, Bool.false_eq_true,
      logSuspiciousActivity]
    rw [show (analyzeRequest st.blockedEntities req now).ip = req.ip from rfl, he]
  · intro r b req' n₁ n₂
    rfl

/-- C4 witness: the amended statement evaluated at the first fold of `reqScale`. -/
theorem fold_stores_no_score_witness :
    (monitorUsage initProt reqScale 0).state.suspiciousActivity =
      mapSet initProt.suspiciousActivity reqScale.ip
        ⟨.record (freshActivityRecord (analyzeRequest initProt.blockedEntities reqScale 0)),
         none⟩ :=
  (fold_stores_no_score initProt reqScale 0 (by decide) (by decide)).1 (by decide)

/-- C5 counterexample: the claim says a request classified `isBot = false` is
allowed immediately and never reaches commercial-violation scoring.  In the code the
commercial-protection middleware runs on every request that was not redirected: a
browser request (`isBot = false`) with the indicator `market` in its referer is
commercially scored (score 3, monitoring range) and folded into the
suspicious-activity map. -/
theorem nonbot_request_still_scored_and_folded :
    (pipeline true initBot initProt reqHumanMarket 1000000 false).analysis.isBot
      = false ∧
    (pipeline true initBot initProt reqHumanMarket 1000000 false).commercial =
      some (monitorUsage initProt reqHumanMarket 1000000) ∧
    (analyzeRequest initProt.blockedEntities reqHumanMarket 1000000).commercialScore
      = 3 ∧
    ¬ (monitorUsage initProt reqHumanMarket 1000000).state = initProt := by
  decide

/-- C5 as amended: a request classified `isBot = false` is never redirected to
charitable computation, but it is not exempt from commercial scoring: the pipeline
always hands it to `monitorUsage`, which analyzes and (in the monitoring range)
folds it regardless of the bot verdict. -/
theorem nonbot_passes_to_commercial_monitoring (ef : Bool) (bst : BotState)
    (cst : ProtState) (req : Request) (now : Nat) (rc : Bool)
    (h : (performTrafficAnalysis bst req now rc).1.isBot = false) :
    (pipeline ef bst cst req now rc).redirected = false ∧
    (pipeline ef bst cst req now rc).commercial = some (monitorUsage cst req now) := by
  constructor <;> simp [pipeline, h]

/-- C5 witness: the amended statement evaluated at the human browser request. -/
theorem nonbot_passes_to_commercial_monitoring_witness :
    (pipeline true initBot initProt reqHumanMarket 555000 false).redirected = false ∧
    (pipeline true initBot initProt reqHumanMarket 555000 false).commercial =
      some (monitorUsage initProt reqHumanMarket 555000) :=
  nonbot_passes_to_commercial_monitoring true initBot initProt reqHumanMarket 555000
    false (by decide)

/-- C6: `dispatchNext(capacity)` over a queue in `sortProjectQueue` order pops up to
`capacity` items from the front — the queued items with the highest priority, ties to
the earliest submission (`queueLE`) — marks each `DISPATCHED`, returns them in
dispatch order, returns the empty sequence on an empty queue, and leaves exactly the
remaining items, still sorted, in the queue. -/
theorem dispatchNext_dispatches_sorted_front (capacity : Nat) (st : AllocState)
    (hsorted : st.projectQueue.Sorted queueLE) :
    (st.projectQueue = [] → (dispatchNext capacity st).1 = []) ∧
    (dispatchNext capacity st).1.length = min capacity st.projectQueue.length ∧
    (∀ p ∈ (dispatchNext capacity st).1, p.status = "DISPATCHED".toList) ∧
    (dispatchNext capacity st).2.projectQueue = st.projectQueue.drop capacity ∧
    (dispatchNext capacity st).2.projectQueue.Sorted queueLE ∧
    ((dispatchNext capacity st).1.map (fun p => (p.id, p.priority60, p.submissionDate)) =
      (st.projectQueue.take capacity).map
        (fun p => (p.id, p.priority60, p.submissionDate))) ∧
    (∀ d ∈ (dispatchNext capacity st).1,
      ∀ r ∈ (dispatchNext capacity st).2.projectQueue, queueLE d r) := by
  have hsplit : List.Pairwise queueLE
      (st.projectQueue.take capacity ++ st.projectQueue.drop capacity) := by
    rw [List.take_append_drop]
    exact hsorted
  have hcross := (List.pairwise_append.mp hsplit).2.2
  refine ⟨?_, ?_, ?_, rfl, ?_, ?_, ?_⟩
  · intro hq
    simp [dispatchNext, hq]
  · simp [dispatchNext]
  · intro p hp
    simp only [dispatchNext, List.mem_map] at hp
    obtain ⟨q, _, rfl⟩ := hp
    rfl
  · exact List.Pairwise.sublist (List.drop_sublist capacity st.projectQueue) hsorted
  · simp only [dispatchNext, List.map_map]
    rfl
  · intro d hd r hr
    simp only [dispatchNext, List.mem_map] at hd
    obtain ⟨q, hq, rfl⟩ := hd
    exact hcross q hq r hr

set_option maxRecDepth 8000 in
/-- C6 witness: dispatching one item from a sorted two-item queue. -/
theorem dispatchNext_dispatches_sorted_front_witness :
    (dispatchNext 1 queueTwo).1.length = min 1 queueTwo.projectQueue.length ∧
    (∀ p ∈ (dispatchNext 1 queueTwo).1, p.status = "DISPATCHED".toList) ∧
    (dispatchNext 1 queueTwo).2.projectQueue.Sorted queueLE :=
  ⟨(dispatchNext_dispatches_sorted_front 1 queueTwo (by decide)).2.1,
   (dispatchNext_dispatches_sorted_front 1 queueTwo (by decide)).2.2.1,
   (dispatchNext_dispatches_sorted_front 1 queueTwo (by decide)).2.2.2.2.1⟩

set_option maxRecDepth 100000 in
/-- C7 counterexample: the claim predicts priority `0.8` for a submission satisfying
every factor except urgency under the configured weights.  The code yields `0.85`
(`51` sixtieths): `calculateProjectPriority` adds an unconditional
`communitySupport * 0.5 = 0.05` term that the claimed weighted sum omits, and
`0.85 ≠ 0.8` is far outside floating-point tolerance. -/
theorem full_factor_priority_is_085_not_08 :
    calculateProjectPriority allocVerified.nonprofitRegistry pdFull = 51 ∧
    ((submitProject allocVerified pdFull "CPR-1".toList 5).outcome.toOption.map
      (fun p => p.priority60)) = some 51 ∧
    (51 : ℚ) / 60 = 17 / 20 ∧ ¬ (17 : ℚ) / 20 = 4 / 5 := by
  refine ⟨by decide, by decide, by norm_num, by norm_num⟩

/-- C7 as amended: a submission whose benefit goals contain every benefit keyword,
whose nonprofit is verified, whose transparency plan is complete, and whose
description carries no urgency keyword gets priority `0.85` — that is, `51/60`: the
four claimed contributions `0.4 + 0.2 + 0.2 + 0` plus the unconditional
community-support term `0.05`. -/
theorem full_factor_priority_51 (st : AllocState) (pd : ProjectData)
    (hk : ∀ k ∈ benefitKeywords, strIncludes (lowerStr pd.publicBenefitGoals) k = true)
    (hnp : nonprofitVerified st.nonprofitRegistry pd.nonprofitId = true)
    (htp : ∃ tp, pd.transparencyPlan = some tp ∧ tp.publicReporting = true ∧
        tp.impactSharing = true ∧ tp.communityUpdates = true)
    (hu : urgencyKeywords.any (fun k => strIncludes (lowerStr pd.description) k)
        = false) :
    calculateProjectPriority st.nonprofitRegistry pd = 51 := by
  obtain ⟨tp, htp1, htp2, htp3, htp4⟩ := htp
  have hfk : benefitKeywords.filter
      (fun k => strIncludes (lowerStr pd.publicBenefitGoals) k) = benefitKeywords :=
    List.filter_eq_self.mpr hk
  unfold nonprofitVerified at hnp
  simp only [calculateProjectPriority, hfk, hu, htp1, htp2, htp3, htp4]
  rcases hm : mapGet st.nonprofitRegistry pd.nonprofitId with _ | np
  · try rw [hm] at hnp
    simp at hnp
  · try rw [hm] at hnp
    have hbeq : (np.status == "verified".toList) = true := by simpa using hnp
    simp only [hbeq, if_true]
    decide

/-- C7 witness: the amended statement evaluated at the fully satisfying submission. -/
theorem full_factor_priority_51_witness :
    calculateProjectPriority allocVerified.nonprofitRegistry pdFull = 51 :=
  full_factor_priority_51 allocVerified pdFull (by decide) (by decide)
    ⟨⟨true, true, true⟩, by decide, rfl, rfl, rfl⟩ (by decide)

/-- C8: after every allocator operation — a successful or failing `submitProject`, a
successful or failing `registerNonprofit` — the project queue is sorted by priority
descending with ties broken by earlier submission (`queueLE`), provided it was sorted
before; a successful submission re-establishes the invariant by re-sorting, so it
holds for every sequence of submissions starting from the empty queue. -/
theorem allocStep_queue_sorted (st : AllocState) (op : AllocOp)
    (h : st.projectQueue.Sorted queueLE) :
    (allocStep st op).projectQueue.Sorted queueLE := by
  cases op with
  | submit pd pid now =>
      simp only [allocStep, submitProject]
      split
      · exact h
      · exact List.sorted_insertionSort queueLE _
  | register rd rid =>
      simp only [allocStep]
      split
      · rename_i st' heq
        rw [registerNonprofit_projectQueue st rd rid st' heq]
        exact h
      · exact h

/-- C8 witness: submitting `pdFull` into the empty (sorted) queue keeps it sorted. -/
theorem allocStep_queue_sorted_witness :
    (allocStep allocVerified (.submit pdFull "CPR-2".toList 9)).projectQueue.Sorted
      queueLE :=
  allocStep_queue_sorted allocVerified (.submit pdFull "CPR-2".toList 9) (by decide)

/-- C9: `submitProject` throws whenever the supplied nonprofit id does not resolve
to a registry entry with status `verified` (whichever validation message fires
first), and every validation failure — missing field, short benefit goals,
inadequate transparency plan, or unverified nonprofit — leaves the allocator state,
in particular the project queue, completely unchanged, because the queue push happens
only after validation passes. -/
theorem submitProject_unverified_rejected (st : AllocState) (pd : ProjectData)
    (pid : Str) (now : Nat) :
    ((¬ ∃ np, mapGet st.nonprofitRegistry pd.nonprofitId = some np ∧
        np.status = "verified".toList) →
      ∃ e, (submitProject st pd pid now).outcome = .error e) ∧
    (∀ e, (submitProject st pd pid now).outcome = .error e →
      (submitProject st pd pid now).state = st) := by
  constructor
  · intro hnp
    rcases hve : validateProjectSubmission st.nonprofitRegistry pd with _ | e
    · exact absurd (validateProjectSubmission_none_verified _ _ hve) hnp
    · refine ⟨e, ?_⟩
      simp only [submitProject]
      rw [hve]
  · intro e he
    simp only [submitProject] at he ⊢
    rcases hve : validateProjectSubmission st.nonprofitRegistry pd with _ | e'
    · try rw [hve] at he
      simp at he
    · try rw [hve]
      rfl

/-- C9 witness: submitting with the unknown nonprofit id `NPR-MISSING` is rejected
and leaves the state unchanged. -/
theorem submitProject_unverified_rejected_witness :
    (∃ e, (submitProject allocVerified pdUnknownNp "CPR-9".toList 5).outcome
      = .error e) ∧
    (submitProject allocVerified pdUnknownNp "CPR-9".toList 5).state = allocVerified := by
  have hmain := submitProject_unverified_rejected allocVerified pdUnknownNp
    "CPR-9".toList 5
  have hnone : mapGet allocVerified.nonprofitRegistry pdUnknownNp.nonprofitId = none := by
    decide
  have h1 := hmain.1 (fun ⟨np, hnp, _⟩ => Option.noConfusion (hnone ▸ hnp))
  obtain ⟨e, he⟩ := h1
  exact ⟨⟨e, he⟩, hmain.2 e he⟩

/-- C10: once an ip has been added to `blockedEntities`, no operation of
`CommercialProtection` ever removes it — every `monitorUsage` branch and every
`reportViolation`/`autoInvestigate` path preserves membership (only the per-ip
activity maps have any eviction anywhere in the code base, and that sweep belongs to
the bot engine's separate map) — and every later analysis of a request from that ip
scores at least the +5 `previously_blocked` contribution and carries the
`previously_blocked` indicator. -/
theorem blockedEntities_grow_only :
    (∀ (st : ProtState) (op : ProtOp) (ip : Str),
      ip ∈ st.blockedEntities → ip ∈ (protStep st op).blockedEntities) ∧
    (∀ (st : ProtState) (req : Request) (now : Nat), req.ip ∈ st.blockedEntities →
      5 ≤ (analyzeRequest st.blockedEntities req now).commercialScore ∧
      "previously_blocked".toList ∈ (analyzeRequest st.blockedEntities req now).indicators) := by
  constructor
  · intro st op ip h
    cases op with
    | monitor req now => exact monitorUsage_blockedEntities_mono st req now h
    | report rd rid now =>
        simp only [protStep]
        rw [reportViolation_blockedEntities]
        exact h
  · intro st req now h
    exact ⟨commercialScoreOf_blocked st.blockedEntities req h,
      previouslyBlocked_indicator st.blockedEntities req h⟩

/-- C10 witness: the invariant evaluated at the blocked ip `198.51.100.9` across a
monitor step. -/
theorem blockedEntities_grow_only_witness :
    "198.51.100.9".toList ∈
      (protStep blockedProt (.monitor reqBenignBlocked 3000)).blockedEntities ∧
    5 ≤ (analyzeRequest blockedProt.blockedEntities reqBenignBlocked 3000).commercialScore :=
  ⟨blockedEntities_grow_only.1 blockedProt (.monitor reqBenignBlocked 3000)
      "198.51.100.9".toList (by decide),
   (blockedEntities_grow_only.2 blockedProt reqBenignBlocked 3000 (by decide)).1⟩

end Pantry
